import Mathlib

/-!
Shallow embedding of the web3 contract hooks module of
aracred/convert.aragon.org (src/components/Convert/ConvertSteps.js).

Modelling conventions:
- ethers BigNumber values (produced via bigNum) are modelled as Int;
- addresses, ABIs, transaction hashes and chain identifiers are String;
- absent JS values (null, undefined, and the empty string where the code
  relies on falsiness) are modelled as Option or the empty string;
- a contract handle's identity is tracked with an explicit objId drawn from
  a counter, so that "the identical cached handle object" is expressible;
- asynchronous flows are modelled by explicit state passing: each hook's
  stateful closure becomes a function from a state record and the
  externally supplied inputs to a new state record plus the visible result.
-/

namespace ConvertSteps

def MAINNET_CONNECTOR_WEIGHT : Nat := 250000

def RINKEBY_CONNECTOR_WEIGHT : Nat := 33333

def RETRY_EVERY : Nat := 1000

def connectorWeights : List (String × Nat) :=
  [("MAINNET_CONNECTOR_WEIGHT", MAINNET_CONNECTOR_WEIGHT),
   ("RINKEBY_CONNECTOR_WEIGHT", RINKEBY_CONNECTOR_WEIGHT)]

/-- Conversion from a JS number or string to a big number; the identity on
our Int model. -/
def bigNum (n : Int) : Int := n

/-- Source: getConnectorWeight. The chain identifier is read from the
environment; here it is passed explicitly. -/
def getConnectorWeight (chainId : String) : Option Nat :=
  connectorWeights.lookup
    (if chainId = "1" then "MAINNET_CONNECTOR_WEIGHT" else "RINKEBY_CONNECTOR_WEIGHT")

/-- An ethers Contract object, as constructed by useContract. objId tracks
object identity (each `new EthersContract` allocates a fresh one). -/
structure EthersContract where
  address : String
  abi : String
  boundToSigner : Bool
  objId : Nat
deriving DecidableEq, Repr

/-- The module-level contractsCache Map plus an allocation counter for
object identities. -/
structure CacheState where
  contractsCache : List (String × EthersContract)
  nextObjId : Nat
deriving DecidableEq, Repr

/-- Source: useContract. Returns null when address or ethersProvider is
falsy; otherwise returns the cached handle for the address when present,
else constructs a handle bound to the signer or the provider, caches it
under the address, and returns it. -/
def useContract (st : CacheState) (address : Option String) (abi : String)
    (signer : Bool) (hasEthersProvider : Bool) :
    Option EthersContract × CacheState :=
  match address, hasEthersProvider with
  | none, _ => (none, st)
  | some _, false => (none, st)
  | some addr, true =>
    match st.contractsCache.lookup addr with
    | some contract => (some contract, st)
    | none =>
      let contract : EthersContract :=
        { address := addr, abi := abi, boundToSigner := signer,
          objId := st.nextObjId }
      (some contract,
       { contractsCache := (addr, contract) :: st.contractsCache,
         nextObjId := st.nextObjId + 1 })

/-- Per-hook state of useTokenBalance: the balance state variable, the set
of fetch identities whose closure-captured cancelled flag has been set, the
fetch identity currently held by the cancelBalanceUpdate ref (if any), and
an allocation counter giving each issued balanceOf fetch a fresh identity. -/
structure TrackerState where
  balance : Int
  cancelledIds : List Nat
  current : Option Nat
  nextFetchId : Nat
deriving DecidableEq, Repr

/-- The initial state of useTokenBalance: balance is the bigNum(-1)
sentinel, no fetch issued or cancelled. -/
def initialTrackerState : TrackerState :=
  { balance := bigNum (-1), cancelledIds := [], current := none,
    nextFetchId := 0 }

/-- Source: updateBalance (the useCallback body inside useTokenBalance).
First invokes and clears any stored canceller (marking the previous fetch
cancelled); then, if neither account nor address is truthy, or there is no
token contract handle, settles the balance to bigNum(-1) and returns no
fetch; otherwise issues a balanceOf fetch for address-or-account, stores
its canceller, and returns the fetch identity with the requested address. -/
def updateBalance (st : TrackerState) (account address : String)
    (hasTokenContract : Bool) : TrackerState × Option (Nat × String) :=
  let cancelledIds :=
    match st.current with
    | some i => i :: st.cancelledIds
    | none => st.cancelledIds
  let st := { st with cancelledIds := cancelledIds, current := none }
  if (account == "" && address == "") || !hasTokenContract then
    ({ st with balance := bigNum (-1) }, none)
  else
    let requestedAddress := if address == "" then account else address
    ({ st with current := some st.nextFetchId
               nextFetchId := st.nextFetchId + 1 },
     some (st.nextFetchId, requestedAddress))

/-- Resolution of an issued balanceOf fetch: the then-callback applies
setBalance only when the closure-captured cancelled flag is unset. -/
def resolveBalanceFetch (st : TrackerState) (fetchId : Nat) (value : Int) :
    TrackerState :=
  if fetchId ∈ st.cancelledIds then st else { st with balance := value }

/-- Source: the condition of the onTransfer handler inside useTokenBalance:
a Transfer event triggers updateBalance exactly when its from or to field
equals the tracked account or the tracked address. -/
def transferTriggersRefresh (account address fromAddr toAddr : String) :
    Bool :=
  fromAddr == account || toAddr == account ||
    fromAddr == address || toAddr == address

/-- Source: onTransfer. On a Transfer event, calls updateBalance when the
tracked account or address appears as sender or receiver, and does nothing
otherwise. -/
def onTransfer (st : TrackerState) (account address : String)
    (hasTokenContract : Bool) (fromAddr toAddr : String) :
    TrackerState × Option (Nat × String) :=
  if transferTriggersRefresh account address fromAddr toAddr then
    updateBalance st account address hasTokenContract
  else
    (st, none)

/-- Well-formedness of a tracker state: every fetch identity recorded as
cancelled or held by the canceller ref was allocated below the counter.
Every state reachable from initialTrackerState satisfies this. -/
def TrackerState.WF (st : TrackerState) : Prop :=
  (∀ i ∈ st.cancelledIds, i < st.nextFetchId) ∧
  (∀ i, st.current = some i → i < st.nextFetchId)

/-- The visible state of useBondingCurvePrice: the loading and price state
variables. price starts at the bigNum(-1) sentinel, loading at false. -/
structure PriceState where
  loading : Bool
  price : Int
deriving DecidableEq, Repr

/-- The initial state of useBondingCurvePrice. -/
def initialPriceState : PriceState :=
  { loading := false, price := bigNum (-1) }

/-- Outcome of one getSalePrice attempt: either the awaited supply and
formula calls both succeed with a sale price, or one of them throws. -/
inductive QuoteAttemptOutcome
  | ok (salePrice : Int)
  | err
deriving DecidableEq, Repr

/-- Source: one run of the getSalePrice async function. It first calls
setLoading(true); then, when the awaited calls succeed and the effect was
not cancelled meanwhile, calls setLoading(false) and setPrice(salePrice);
when they throw and the effect was not cancelled, schedules a retry of
getSalePrice after RETRY_EVERY ms without touching loading or price. The
returned flag records whether a retry timer was scheduled. -/
def getSalePriceAttempt (st : PriceState) (cancelled : Bool)
    (o : QuoteAttemptOutcome) : PriceState × Bool :=
  let st := { st with loading := true }
  match o with
  | .ok salePrice =>
    if cancelled then (st, false)
    else ({ loading := false, price := salePrice }, false)
  | .err =>
    if cancelled then (st, false) else (st, true)

/-- A maximal uncancelled run of the getSalePrice retry loop over a script
of attempt outcomes: each failed attempt is followed by the retried attempt
after the RETRY_EVERY delay, and the state after processing a trailing
.err entry is exactly the state observed during that inter-retry delay. -/
def getSalePriceRun (st : PriceState) : List QuoteAttemptOutcome → PriceState
  | [] => st
  | o :: rest => getSalePriceRun (getSalePriceAttempt st false o).1 rest

/-- An approve transaction submitted by the allowance flow, recording the
spender and the approved amount. -/
structure ApproveCall where
  spender : String
  amount : Int
deriving DecidableEq, Repr

/-- JS value returned by the callback of useAllowance: false, undefined
(the implicit return), or the result of the approve transaction. -/
inductive AllowanceReturn
  | retFalse
  | retUndefined
  | retTx (tx : ApproveCall)
deriving DecidableEq, Repr

/-- Source: the async callback returned by useAllowance. Returns false when
there is no ANT contract handle; otherwise awaits
allowance(account, marketMakerAddress) and, when it is strictly below
bigNum(amount), submits approve(marketMakerAddress, amount) and returns its
result, else returns undefined. The second component lists the approve
transactions submitted during the call. -/
def useAllowanceCall (hasAntContract : Bool)
    (account marketMakerAddress : String)
    (allowanceOf : String → String → Int) (amount : Int) :
    AllowanceReturn × List ApproveCall :=
  if hasAntContract = false then (.retFalse, [])
  else
    let allowance := allowanceOf account marketMakerAddress
    if allowance < bigNum amount then
      let tx : ApproveCall := { spender := marketMakerAddress, amount := amount }
      (.retTx tx, [tx])
    else
      (.retUndefined, [])

/-- An order transaction submitted by useOpenOrder: buy or sell, against
the source token, with its gas limit and (for buy) the attached value. -/
structure OpenOrderCall where
  isBuy : Bool
  token : String
  amount : Int
  gasLimit : Nat
  value : Option Nat
deriving DecidableEq, Repr

/-- JS value returned by the callback of useOpenOrder. -/
inductive OpenOrderReturn
  | retFalse
  | submitted (tx : OpenOrderCall)
deriving DecidableEq, Repr

/-- Source: the async callback returned by useOpenOrder. Returns false
when there is no FUNDRAISING contract handle; otherwise submits
openBuyOrder(antAddress, amount) with gasLimit 650000 and value 0 when
toAnj, and openSellOrder(antAddress, amount) with gasLimit 850000
otherwise. -/
def openOrder (hasFundraisingContract : Bool) (antAddress : String)
    (amount : Int) (toAnj : Bool) : OpenOrderReturn :=
  if hasFundraisingContract = false then .retFalse
  else if toAnj then
    .submitted { isBuy := true, token := antAddress, amount := amount,
                 gasLimit := 650000, value := some 0 }
  else
    .submitted { isBuy := false, token := antAddress, amount := amount,
                 gasLimit := 850000, value := none }

/-- A transaction record returned by the provider's getTransaction, of
which only the blockNumber field is used. -/
structure ChainTransaction where
  blockNumber : Nat
deriving DecidableEq, Repr

/-- A JS runtime exception raised by the claim flow: dereferencing a null
provider or contract handle, or destructuring a null getTransaction
result. -/
inductive JsError
  | nullDereference
deriving DecidableEq, Repr

/-- A claim transaction submitted by useClaimOrder, keyed by account,
batchId and token, with its gas limit. -/
structure ClaimOrderCall where
  isBuyClaim : Bool
  account : String
  batchId : Nat
  token : String
  gasLimit : Nat
deriving DecidableEq, Repr

/-- JS value returned by the callback of useClaimOrder when it does not
throw. retFalse is present only to express that no execution path of
claimOrder produces it: the claim flow has no fail-closed branch. -/
inductive ClaimOrderReturn
  | retFalse
  | submitted (tx : ClaimOrderCall)
deriving DecidableEq, Repr

/-- Source: the async callback returned by useClaimOrder. With no guard, it
awaits ethersProvider.getTransaction(openOrderTransactionHash) and
destructures blockNumber as batchId, so a null provider or a not-found
transaction raises an exception; it then submits
claimBuyOrder(account, batchId, antAddress) with gasLimit 500000 when
toAnj, and claimSellOrder(account, batchId, antAddress) with gasLimit
500000 otherwise, so a null FUNDRAISING handle also raises an exception. -/
def claimOrder (ethersProvider : Option (String → Option ChainTransaction))
    (hasFundraisingContract : Bool) (account antAddress : String)
    (openOrderTransactionHash : String) (toAnj : Bool) :
    Except JsError ClaimOrderReturn :=
  match ethersProvider with
  | none => .error .nullDereference
  | some getTransaction =>
    match getTransaction openOrderTransactionHash with
    | none => .error .nullDereference
    | some tx =>
      let batchId := tx.blockNumber
      if hasFundraisingContract = false then .error .nullDereference
      else if toAnj then
        .ok (.submitted
          { isBuyClaim := true, account := account, batchId := batchId,
            token := antAddress, gasLimit := 500000 })
      else
        .ok (.submitted
          { isBuyClaim := false, account := account, batchId := batchId,
            token := antAddress, gasLimit := 500000 })

/-- C7: the connector weight is a pure function of the active chain
identifier: for chain identifier "1" it is the mainnet weight 250000, and
for every other chain identifier, including unknown ones, it is the
testnet weight 33333; being a function of the chain identifier alone, it
never changes during a session. -/
theorem getConnectorWeight_pure_table (chainId : String) :
    getConnectorWeight "1" = some MAINNET_CONNECTOR_WEIGHT ∧
      (chainId ≠ "1" →
        getConnectorWeight chainId = some RINKEBY_CONNECTOR_WEIGHT) := by
  constructor
  · rfl
  · intro h
    unfold getConnectorWeight
    rw [if_neg h]
    decide

/-- Witness for C7 at the concrete unknown chain identifier "4". -/
theorem getConnectorWeight_pure_table_witness :
    getConnectorWeight "4" = some RINKEBY_CONNECTOR_WEIGHT :=
  (getConnectorWeight_pure_table "4").2 (by decide)

/-- C8: for every refresh in any prior tracker state, whenever neither a
connected account nor an explicit address is resolvable, or no token
contract handle exists, the balance settles to the sentinel bigNum(-1)
with no fetch left pending. -/
theorem updateBalance_sentinel (st : TrackerState) (account address : String)
    (hasTokenContract : Bool)
    (h : ((account == "" && address == "") || !hasTokenContract) = true) :
    (updateBalance st account address hasTokenContract).1.balance = bigNum (-1) ∧
      (updateBalance st account address hasTokenContract).1.current = none ∧
      (updateBalance st account address hasTokenContract).2 = none := by
  simp [updateBalance, h]

/-- Witness for C8: a refresh from a previously settled state with no
resolvable target settles back to the sentinel. -/
theorem updateBalance_sentinel_witness :
    (updateBalance
        { balance := 7, cancelledIds := [2], current := some 3, nextFetchId := 4 }
        "" "" true).1.balance = bigNum (-1) ∧
      (updateBalance
        { balance := 7, cancelledIds := [2], current := some 3, nextFetchId := 4 }
        "" "" true).1.current = none ∧
      (updateBalance
        { balance := 7, cancelledIds := [2], current := some 3, nextFetchId := 4 }
        "" "" true).2 = none :=
  updateBalance_sentinel
    { balance := 7, cancelledIds := [2], current := some 3, nextFetchId := 4 }
    "" "" true (by decide)

/-- C9: a Transfer event triggers a refresh exactly when the tracked
account or address appears as sender or receiver; an event whose sender
and receiver are both different from the tracked account and the tracked
address is a no-op. -/
theorem onTransfer_refresh_condition (st : TrackerState)
    (account address : String) (hasTokenContract : Bool)
    (fromAddr toAddr : String) :
    (transferTriggersRefresh account address fromAddr toAddr = true ↔
      (fromAddr = account ∨ toAddr = account ∨
        fromAddr = address ∨ toAddr = address)) ∧
    (fromAddr ≠ account → toAddr ≠ account →
      fromAddr ≠ address → toAddr ≠ address →
      onTransfer st account address hasTokenContract fromAddr toAddr
        = (st, none)) := by
  constructor
  · simp [transferTriggersRefresh, or_assoc]
  · intro h1 h2 h3 h4
    simp [onTransfer, transferTriggersRefresh, h1, h2, h3, h4]

/-- Witness for C9: a Transfer event between two untracked addresses
leaves the tracker untouched. -/
theorem onTransfer_refresh_condition_witness :
    onTransfer initialTrackerState "0xA" "0xB" true "0xC" "0xD"
      = (initialTrackerState, none) :=
  (onTransfer_refresh_condition initialTrackerState "0xA" "0xB" true
      "0xC" "0xD").2 (by decide) (by decide) (by decide) (by decide)

/-- C3: with an active connection, once a call of useContract for an
address has returned a handle, a second call with the same address returns
the identical cached handle object and leaves the cache untouched, even
when the ABI and the signer flag differ from the first call. -/
theorem useContract_idempotent (st : CacheState) (addr : String)
    (abi1 abi2 : String) (signer1 signer2 : Bool) (h : EthersContract)
    (hfirst : (useContract st (some addr) abi1 signer1 true).1 = some h) :
    useContract (useContract st (some addr) abi1 signer1 true).2 (some addr)
        abi2 signer2 true
      = (some h, (useContract st (some addr) abi1 signer1 true).2) := by
  cases hc : st.contractsCache.lookup addr with
  | some c =>
    have hch : c = h := by simpa [useContract, hc] using hfirst
    simp [useContract, hc, hch]
  | none =>
    have hh : ({ address := addr, abi := abi1, boundToSigner := signer1,
                 objId := st.nextObjId } : EthersContract) = h := by
      simpa [useContract, hc] using hfirst
    simp [useContract, hc, List.lookup, ← hh]

/-- Witness for C3: caching a handle for an address and looking it up
again with a different ABI and signer flag returns the same object. -/
theorem useContract_idempotent_witness :
    useContract
        (useContract { contractsCache := [], nextObjId := 0 }
          (some "0xA") "abi1" true true).2
        (some "0xA") "abi2" false true
      = (some { address := "0xA", abi := "abi1", boundToSigner := true,
                objId := 0 },
         (useContract { contractsCache := [], nextObjId := 0 }
           (some "0xA") "abi1" true true).2) :=
  useContract_idempotent { contractsCache := [], nextObjId := 0 } "0xA"
    "abi1" "abi2" true false
    { address := "0xA", abi := "abi1", boundToSigner := true, objId := 0 }
    (by decide)

/-- C4: the allowance flow returns false when no spender contract handle
is available; otherwise, when the current allowance of
(account, marketMakerAddress) is strictly below the amount it submits
exactly one approval transaction for exactly that amount and returns its
result, and when the allowance is at least the amount it submits no
transaction and returns undefined. -/
theorem useAllowance_spec (hasAntContract : Bool)
    (account marketMakerAddress : String)
    (allowanceOf : String → String → Int) (amount : Int) :
    (hasAntContract = false →
      useAllowanceCall hasAntContract account marketMakerAddress allowanceOf
          amount
        = (.retFalse, [])) ∧
    (hasAntContract = true →
      allowanceOf account marketMakerAddress < amount →
      useAllowanceCall hasAntContract account marketMakerAddress allowanceOf
          amount
        = (.retTx { spender := marketMakerAddress, amount := amount },
           [{ spender := marketMakerAddress, amount := amount }])) ∧
    (hasAntContract = true →
      amount ≤ allowanceOf account marketMakerAddress →
      useAllowanceCall hasAntContract account marketMakerAddress allowanceOf
          amount
        = (.retUndefined, [])) := by
  refine ⟨?_, ?_, ?_⟩
  · intro h
    simp [useAllowanceCall, h]
  · intro h hlt
    simp [useAllowanceCall, h, bigNum, hlt]
  · intro h hge
    simp [useAllowanceCall, h, bigNum, not_lt.mpr hge]

/-- Witness for C4: with allowance 5, amount 9 triggers an approval for
exactly 9, amount 3 triggers nothing, and a missing handle returns
false. -/
theorem useAllowance_spec_witness :
    useAllowanceCall false "0xU" "0xM" (fun _ _ => 5) 9 = (.retFalse, []) ∧
      useAllowanceCall true "0xU" "0xM" (fun _ _ => 5) 9
        = (.retTx { spender := "0xM", amount := 9 },
           [{ spender := "0xM", amount := 9 }]) ∧
      useAllowanceCall true "0xU" "0xM" (fun _ _ => 5) 3
        = (.retUndefined, []) :=
  ⟨(useAllowance_spec false "0xU" "0xM" (fun _ _ => 5) 9).1 rfl,
   (useAllowance_spec true "0xU" "0xM" (fun _ _ => 5) 9).2.1 rfl (by decide),
   (useAllowance_spec true "0xU" "0xM" (fun _ _ => 5) 3).2.2 rfl (by decide)⟩

/-- C6: openOrder returns false when the order-processing contract handle
is unavailable; otherwise it submits a buy order with gas limit 650000 and
zero value when converting to ANJ, and a sell order with gas limit 850000
otherwise, always against the fixed ANT source token address. -/
theorem openOrder_spec (hasFundraisingContract : Bool) (antAddress : String)
    (amount : Int) (toAnj : Bool) :
    (hasFundraisingContract = false →
      openOrder hasFundraisingContract antAddress amount toAnj = .retFalse) ∧
    (hasFundraisingContract = true → toAnj = true →
      openOrder hasFundraisingContract antAddress amount toAnj
        = .submitted { isBuy := true, token := antAddress, amount := amount,
                       gasLimit := 650000, value := some 0 }) ∧
    (hasFundraisingContract = true → toAnj = false →
      openOrder hasFundraisingContract antAddress amount toAnj
        = .submitted { isBuy := false, token := antAddress, amount := amount,
                       gasLimit := 850000, value := none }) := by
  refine ⟨?_, ?_, ?_⟩
  · intro h
    simp [openOrder, h]
  · intro h ht
    simp [openOrder, h, ht]
  · intro h ht
    simp [openOrder, h, ht]

/-- Witness for C6: concrete buy, sell, and missing-handle calls. -/
theorem openOrder_spec_witness :
    openOrder false "0xANT" 11 true = .retFalse ∧
      openOrder true "0xANT" 11 true
        = .submitted { isBuy := true, token := "0xANT", amount := 11,
                       gasLimit := 650000, value := some 0 } ∧
      openOrder true "0xANT" 11 false
        = .submitted { isBuy := false, token := "0xANT", amount := 11,
                       gasLimit := 850000, value := none } :=
  ⟨(openOrder_spec false "0xANT" 11 true).1 rfl,
   (openOrder_spec true "0xANT" 11 true).2.1 rfl rfl,
   (openOrder_spec true "0xANT" 11 false).2.2 rfl rfl⟩

/-- C5: when the open-order transaction hash resolves to a transaction
with block number B, the submitted claim transaction uses batchId = B
exactly, is keyed by (account, batchId, token), and carries gas limit
500000 in both directions. -/
theorem claimOrder_batchId (getTransaction : String → Option ChainTransaction)
    (account antAddress hash : String) (toAnj : Bool) (tx : ChainTransaction)
    (htx : getTransaction hash = some tx) :
    claimOrder (some getTransaction) true account antAddress hash toAnj
      = .ok (.submitted
          { isBuyClaim := toAnj, account := account,
            batchId := tx.blockNumber, token := antAddress,
            gasLimit := 500000 }) := by
  cases toAnj <;> simp [claimOrder, htx]

/-- Witness for C5: a hash resolving to block number 1234 yields a claim
with batchId 1234 and gas limit 500000. -/
theorem claimOrder_batchId_witness :
    claimOrder (some fun _ => some { blockNumber := 1234 }) true "0xU" "0xANT"
        "0xh" true
      = .ok (.submitted
          { isBuyClaim := true, account := "0xU", batchId := 1234,
            token := "0xANT", gasLimit := 500000 }) :=
  claimOrder_batchId (fun _ => some { blockNumber := 1234 }) "0xU" "0xANT"
    "0xh" true { blockNumber := 1234 } rfl

/-- C10: the claim flow performs no availability check: whenever the
provider or the order-processing contract handle is null, claimOrder does
not return false but fails with a null-dereference exception; no execution
path of the claim flow returns false. -/
theorem claimOrder_no_fail_closed
    (ethersProvider : Option (String → Option ChainTransaction))
    (hasFundraisingContract : Bool) (account antAddress hash : String)
    (toAnj : Bool)
    (h : ethersProvider = none ∨ hasFundraisingContract = false) :
    claimOrder ethersProvider hasFundraisingContract account antAddress hash
        toAnj
      = .error .nullDereference ∧
    claimOrder ethersProvider hasFundraisingContract account antAddress hash
        toAnj
      ≠ .ok .retFalse := by
  have hmain : claimOrder ethersProvider hasFundraisingContract account
      antAddress hash toAnj = .error .nullDereference := by
    rcases h with h | h
    · simp [claimOrder, h]
    · cases ethersProvider with
      | none => simp [claimOrder]
      | some getTransaction =>
        cases htx : getTransaction hash with
        | none => simp [claimOrder, htx]
        | some tx => simp [claimOrder, htx, h]
  exact ⟨hmain, by simp [hmain]⟩

/-- Witness for C10: with a null provider the claim flow raises instead of
returning false. -/
theorem claimOrder_no_fail_closed_witness :
    claimOrder none true "0xU" "0xANT" "0xh" true = .error .nullDereference ∧
      claimOrder none true "0xU" "0xANT" "0xh" true ≠ .ok .retFalse :=
  claimOrder_no_fail_closed none true "0xU" "0xANT" "0xh" true (Or.inl rfl)

/-- Running the retry loop over a concatenated script splits into two
runs. -/
theorem getSalePriceRun_append (st : PriceState)
    (l1 l2 : List QuoteAttemptOutcome) :
    getSalePriceRun st (l1 ++ l2)
      = getSalePriceRun (getSalePriceRun st l1) l2 := by
  induction l1 generalizing st with
  | nil => rfl
  | cons o rest ih => simp [getSalePriceRun, ih]

/-- After one or more failed attempts the oracle sits in the inter-retry
delay with loading true and the price untouched. -/
theorem getSalePriceRun_replicate_err (n : Nat) (st : PriceState) :
    getSalePriceRun st (List.replicate n QuoteAttemptOutcome.err)
      = if n = 0 then st
        else { loading := true, price := st.price } := by
  induction n generalizing st with
  | zero => rfl
  | succ n ih =>
    rw [List.replicate_succ]
    simp only [getSalePriceRun, getSalePriceAttempt, ih]
    cases n <;> simp

/-- C1 counterexample: immediately after a failed attempt, during the
RETRY_EVERY inter-retry delay and before the retry fires, the loading
flag is not false: the catch branch schedules the retry without clearing
the loading flag set at the start of the attempt. -/
theorem getSalePrice_loading_in_delay_cex :
    (getSalePriceRun initialPriceState [QuoteAttemptOutcome.err]).loading
      ≠ false := by
  decide

/-- C1 (amended): the loading flag is set when an attempt starts and
remains true during the inter-retry delay after every failed attempt; it
becomes false exactly when an attempt succeeds, at which point the final
price equals the success value, which is the only quote value observed as
final. -/
theorem getSalePrice_retry_loading (st : PriceState) (n : Nat) (v : Int) :
    (0 < n →
      (getSalePriceRun st
          (List.replicate n QuoteAttemptOutcome.err)).loading = true) ∧
    getSalePriceRun st
        (List.replicate n QuoteAttemptOutcome.err ++ [QuoteAttemptOutcome.ok v])
      = { loading := false, price := v } := by
  constructor
  · intro hn
    rw [getSalePriceRun_replicate_err]
    rw [if_neg (Nat.pos_iff_ne_zero.mp hn)]
  · rw [getSalePriceRun_append, getSalePriceRun_replicate_err]
    cases n <;> simp [getSalePriceRun, getSalePriceAttempt]

/-- Witness for C1 (amended): two consecutive failures then a success with
value 7: loading is true during the delays and the final quote is 7 with
loading false. -/
theorem getSalePrice_retry_loading_witness :
    (0 : Nat) < 2 ∧
      (getSalePriceRun initialPriceState
          (List.replicate 2 QuoteAttemptOutcome.err)).loading = true ∧
      getSalePriceRun initialPriceState
          (List.replicate 2 QuoteAttemptOutcome.err
            ++ [QuoteAttemptOutcome.ok 7])
        = { loading := false, price := 7 } :=
  ⟨by decide,
   (getSalePrice_retry_loading initialPriceState 2 7).1 (by decide),
   (getSalePrice_retry_loading initialPriceState 2 7).2⟩

/-- When a target address and a token handle exist, a refresh cancels the
previous in-flight fetch (when any) and issues a fresh one with the next
fetch identity. -/
theorem updateBalance_issue (st : TrackerState) (account address : String)
    (hc : (account == "" && address == "") = false) :
    updateBalance st account address true
      = ({ balance := st.balance,
           cancelledIds :=
             match st.current with
             | some i => i :: st.cancelledIds
             | none => st.cancelledIds,
           current := some st.nextFetchId,
           nextFetchId := st.nextFetchId + 1 },
         some (st.nextFetchId,
               if address == "" then account else address)) := by
  simp [updateBalance, hc]

/-- C2: starting fetch A, then fetch B before A resolves, then resolving B
and finally A: the superseded fetch A never overwrites the newer value,
and the settled balance equals B's result. -/
theorem superseded_fetch_never_overwrites (st : TrackerState)
    (account address : String)
    (stA stB : TrackerState) (a b : Nat) (ra rb : String) (vA vB : Int)
    (hwf : st.WF)
    (hA : updateBalance st account address true = (stA, some (a, ra)))
    (hB : updateBalance stA account address true = (stB, some (b, rb))) :
    (resolveBalanceFetch (resolveBalanceFetch stB b vB) a vA).balance
      = vB := by
  obtain ⟨hw1, hw2⟩ := hwf
  by_cases hc : (account == "" && address == "") = true
  · simp [updateBalance, hc] at hA
  · rw [Bool.not_eq_true] at hc
    rw [updateBalance_issue st account address hc] at hA
    rw [Prod.mk.injEq, Option.some.injEq, Prod.mk.injEq] at hA
    obtain ⟨hstA, ha, -⟩ := hA
    rw [← hstA] at hB
    rw [updateBalance_issue _ account address hc] at hB
    rw [Prod.mk.injEq, Option.some.injEq, Prod.mk.injEq] at hB
    obtain ⟨hstB, hb, -⟩ := hB
    subst ha hb
    rw [← hstB]
    have hmem0 : ∀ i ∈ (match st.current with
        | some j => j :: st.cancelledIds
        | none => st.cancelledIds), i < st.nextFetchId := by
      cases hcur : st.current with
      | none =>
        intro i hi
        exact hw1 i hi
      | some j =>
        intro i hi
        rcases List.mem_cons.mp hi with h | h
        · rw [h]
          exact hw2 j hcur
        · exact hw1 i h
    have hbn : st.nextFetchId + 1
        ∉ st.nextFetchId :: (match st.current with
            | some j => j :: st.cancelledIds
            | none => st.cancelledIds) := by
      intro hm
      rcases List.mem_cons.mp hm with h | h
      · omega
      · have := hmem0 _ h
        omega
    simp [resolveBalanceFetch, hbn]

/-- Witness for C2: from the initial tracker state, fetch A (identity 0)
is started, fetch B (identity 1) is started before A resolves, B resolves
to 9, then A resolves to 5; the settled balance is B's result 9. -/
theorem superseded_fetch_never_overwrites_witness :
    (resolveBalanceFetch (resolveBalanceFetch
        { balance := -1, cancelledIds := [0], current := some 1,
          nextFetchId := 2 } 1 9) 0 5).balance = 9 :=
  superseded_fetch_never_overwrites initialTrackerState "0xA" ""
    { balance := -1, cancelledIds := [], current := some 0, nextFetchId := 1 }
    { balance := -1, cancelledIds := [0], current := some 1, nextFetchId := 2 }
    0 1 "0xA" "0xA" 5 9
    (by simp [TrackerState.WF, initialTrackerState])
    (by decide) (by decide)

end ConvertSteps
